import Mathlib

/-!
Shallow embedding of `src/app.py` (Booking.com price monitor).

Modelling conventions:
* JSON payloads returned by the scraping service are modelled by the
  inductive `Json`; Python's `d["k"]` / `xs[i]` accesses inside the
  `try/except` of `extract_price_per_night` become `Option`-valued
  accessors (an access that would raise maps to `none`).
* Python dates are modelled by their day ordinal (`ℤ`); `d2 - d1` in days
  is integer subtraction, and date comparison is integer comparison.
  `isoformat` is modelled by an injective rendering of the ordinal; no
  claim inspects the string's format.
* Python `float` prices are modelled by exact rationals `ℚ`.  Python's
  `round(x, n)` rounds half-to-even; `pyRound2`/`pyRound1` implement that
  tie rule on exact rationals.  (On non-dyadic values binary floating
  point can deviate within one ulp of a tie; every concrete input used
  below is exactly representable in binary64, where the two agree.)
* A pandas missing value (NaN) in a price column is `Option.none`.
  Pandas elementwise `!=` treats NaN as unequal to everything, including
  NaN itself (`pandasNe`); arithmetic with NaN yields NaN (`pdSub`,
  `pdPct`).
* The network (`run_apify`: submit job, wait, `raise_for_status`,
  `res.json()`) is external; it is abstracted as a parameter
  `net : String → Except String Json` mapping a booking URL to either the
  decoded payload or a raised transport/timeout error.  `asyncio.gather`
  without `return_exceptions` re-raises an exception from any task and
  discards all results, modelled by `List.mapM` over `Except`.
-/

/-- Untyped JSON values, the shape of an Apify result payload. -/
inductive Json where
  | null
  | bool (b : Bool)
  | num (q : ℚ)
  | str (s : String)
  | arr (elems : List Json)
  | obj (fields : List (String × Json))

/-- Python `j["k"]` on a dict: the field's value, `none` when `j` is not a
dict or the key is missing (which in Python raises and is caught by the
surrounding `except`). -/
def Json.getO : Json → String → Option Json
  | .obj fields, key => fields.lookup key
  | _, _ => none

/-- Python `j[i]` on a list: `none` when `j` is not a list or the index is
out of range (raises in Python, caught by the surrounding `except`). -/
def Json.getIdx : Json → ℕ → Option Json
  | .arr elems, i => elems.get? i
  | _, _ => none

/-- A JSON value usable as a number in Python arithmetic: numbers are
themselves, booleans coerce to 0/1 (Python `bool` is an `int`), anything
else raises a `TypeError` (caught by the surrounding `except`). -/
def Json.asNum : Json → Option ℚ
  | .num q => some q
  | .bool b => some (if b then 1 else 0)
  | _ => none

/-- Round a rational to the nearest integer, ties to the even integer:
the tie rule of Python's `round`. -/
def roundHalfEven (x : ℚ) : ℤ :=
  let n := Int.floor x
  let frac := x - n
  if frac < 1/2 then n
  else if 1/2 < frac then n + 1
  else if n % 2 = 0 then n else n + 1

/-- Python `round(x, 2)` on exact rationals. -/
def pyRound2 (x : ℚ) : ℚ := (roundHalfEven (x * 100) : ℚ) / 100

/-- Python `round(x, 1)` (also the tie rule of pandas `.round(1)`) on
exact rationals. -/
def pyRound1 (x : ℚ) : ℚ := (roundHalfEven (x * 10) : ℚ) / 10

/-- Function `extract_price_per_night(apify_result, nights)` from `src/app.py`:

    try:
        total = apify_result["data"]["items"][0]["price"]["total"]
        return round(total/nights,2)
    except Exception:
        return None

Every failing access, a non-numeric `total`, and `nights = 0`
(`ZeroDivisionError`) raise inside the `try` and yield `None`. -/
def extract_price_per_night (apify_result : Json) (nights : ℤ) : Option ℚ := do
  let d ← apify_result.getO "data"
  let items ← d.getO "items"
  let item0 ← items.getIdx 0
  let price ← item0.getO "price"
  let totalJ ← price.getO "total"
  let total ← totalJ.asNum
  if nights = 0 then none else some (pyRound2 (total / (nights : ℚ)))

/-- The composed access path `apify_result["data"]["items"][0]["price"]["total"]`
read as a number — the only part of a payload `extract_price_per_night`
looks at. -/
def totalField (apify_result : Json) : Option ℚ :=
  ((((apify_result.getO "data").bind (fun d => d.getO "items")).bind
      (fun items => items.getIdx 0)).bind
      (fun item0 => item0.getO "price")).bind
      (fun price => (price.getO "total").bind Json.asNum)

/-- One row of the competitors sheet; the five columns `src/app.py` reads.
A missing `booking_url` cell (pandas NaN) is `none`. -/
structure SheetRow where
  unit_name : String
  room_type : String
  role : String
  property_name : String
  booking_url : Option String
deriving DecidableEq

/-- The result dict built by `fetch_price` for one property. -/
structure PriceQuote where
  property_name : String
  role : String
  price_per_night : Option ℚ
deriving DecidableEq

/-- The row selection `df[(df["unit_name"]==unit) & (df["room_type"]==room)]`:
the (unit, room) group's block. -/
def room_block (df : List SheetRow) (unit room : String) : List SheetRow :=
  df.filter (fun r => r.unit_name == unit && r.room_type == room)

/-- Function `validate_room_block(df, unit, room)` from `src/app.py`: filter the
block, require exactly one `own` row, exactly five `competitor` rows, and
no missing `booking_url`; return the own row and the competitors. -/
def validate_room_block (df : List SheetRow) (unit room : String) :
    Except String (SheetRow × List SheetRow) :=
  let block := room_block df unit room
  let own := block.filter (fun r => r.role == "own")
  let competitors := block.filter (fun r => r.role == "competitor")
  match own with
  | [ownRow] =>
    if competitors.length ≠ 5 then .error "Must have exactly 5 competitors"
    else if block.any (fun r => r.booking_url.isNone) then .error "Missing booking_url"
    else .ok (ownRow, competitors)
  | _ => .error "Must have exactly 1 own property"

/-- The `input_data` dict built by `run_apify(url, check_in, check_out)`,
as the ordered key/value list of the JSON body posted to the scraper. -/
def apify_input (url : String) (check_in check_out : ℤ) : List (String × Json) :=
  [("startUrls", Json.arr [Json.obj [("url", Json.str url)]]),
   ("checkIn", Json.str (toString check_in)),
   ("checkOut", Json.str (toString check_out)),
   ("currency", Json.str "EUR"),
   ("maxListings", Json.num 1)]

/-- Function `fetch_price(row, check_in, check_out, nights)`: run the scraper job
for `row["booking_url"]` and wrap the extracted price with the row's name
and role.  An exception from `run_apify` (timeout, transport error, HTTP
error status) propagates; a `booking_url` that is NaN also makes the HTTP
call raise. -/
def fetch_price (net : String → Except String Json) (nights : ℤ)
    (row : SheetRow) : Except String PriceQuote :=
  match row.booking_url with
  | none => .error "invalid booking_url"
  | some url =>
    (net url).map (fun payload =>
      ⟨row.property_name, row.role, extract_price_per_night payload nights⟩)

/-- One row of the table built by `build_room_table`: a quote plus the two
diff columns `diff_vs_own (€)` and `diff_vs_own (%)`.  NaN entries are
`none`. -/
structure CompRow where
  property_name : String
  role : String
  price_per_night : Option ℚ
  diff_abs : Option ℚ
  diff_pct : Option ℚ
deriving DecidableEq

/-- Pandas elementwise subtraction on possibly-NaN values: NaN on either
side propagates. -/
def pdSub : Option ℚ → Option ℚ → Option ℚ
  | some a, some b => some (a - b)
  | _, _ => none

/-- Pandas `(diff / own_price * 100).round(1)` on possibly-NaN values.
NaN propagates.  A resolved `own_price = 0` would give IEEE infinity,
which `Option ℚ` cannot carry; it is mapped to `none` here, and every
statement touching the percentage column assumes `own_price ≠ 0`. -/
def pdPct (diff own : Option ℚ) : Option ℚ :=
  match diff, own with
  | some d, some o => if o = 0 then none else some (pyRound1 (d / o * 100))
  | _, _ => none

/-- Lines 100–102 of `src/app.py`: take the own row's price by first
position (`df_result[df_result["role"]=="own"]["price_per_night"].iloc[0]`;
`iloc[0]` on an empty selection raises an `IndexError`) and add the two
diff columns elementwise. -/
def addDiffs (results : List PriceQuote) : Except String (List CompRow) :=
  match results.find? (fun q => q.role == "own") with
  | none => .error "single positional indexer is out-of-bounds"
  | some ownQ =>
    .ok (results.map (fun q =>
      ⟨q.property_name, q.role, q.price_per_night,
        pdSub q.price_per_night ownQ.price_per_night,
        pdPct (pdSub q.price_per_night ownQ.price_per_night) ownQ.price_per_night⟩))

/-- The fan-out `await asyncio.gather(*tasks)` over the `fetch_price`
tasks of a block: results come back in submission order, one per input;
when any single task raises, `gather` (without `return_exceptions`)
re-raises that exception and every sibling result is discarded. -/
def run_jobs (net : String → Except String Json) (nights : ℤ) :
    List SheetRow → Except String (List PriceQuote)
  | [] => .ok []
  | row :: rest => do
    let q ← fetch_price net nights row
    let qs ← run_jobs net nights rest
    pure (q :: qs)

/-- Function `build_room_table(df, unit, room, check_in, check_out)` from
`src/app.py`: compute `nights`, validate the block, fetch one quote per
row via `asyncio.gather`, then add the diff columns. -/
def build_room_table (net : String → Except String Json) (df : List SheetRow)
    (unit room : String) (check_in check_out : ℤ) :
    Except String (List CompRow) := do
  let nights := check_out - check_in
  let (own, competitors) ← validate_room_block df unit room
  let rows := own :: competitors
  let results ← run_jobs net nights rows
  addDiffs results

/-- A change alert for one property of one group (the data interpolated
into the alert string `"... price changed {old} -> {new}"`). -/
structure ChangeEvent where
  property_name : String
  old_price : Option ℚ
  new_price : Option ℚ
deriving DecidableEq

/-- Pandas elementwise `!=` on two possibly-NaN price cells: numeric cells
compare numerically, and NaN is unequal to everything — including another
NaN. -/
def pandasNe : Option ℚ → Option ℚ → Bool
  | some a, some b => decide (a ≠ b)
  | _, _ => true

/-- The merge `df_room.merge(old, on="property_name", suffixes=("","_old"))`
restricted to the data the change check reads: an inner join pairing each
current row with the old price of every old row bearing the same
`property_name`, in left-frame order.  Current rows with no match in the
old snapshot are dropped. -/
def mergeOld (current : List CompRow) (old : List (String × Option ℚ)) :
    List (CompRow × Option ℚ) :=
  current.flatMap (fun c =>
    (old.filter (fun o => o.1 == c.property_name)).map (fun o => (c, o.2)))

/-- Lines 155–160 of `src/app.py`: keep the merged rows whose
`price_per_night != price_per_night_old` under pandas semantics and emit
one alert per kept row. -/
def detect_changes (current : List CompRow) (old : List (String × Option ℚ)) :
    List ChangeEvent :=
  (mergeOld current old).filterMap (fun co =>
    if pandasNe co.1.price_per_night co.2
    then some ⟨co.1.property_name, co.2, co.1.price_per_night⟩
    else none)

/-- Pandas `Series.unique`: distinct values in order of first appearance. -/
def unique_first (xs : List String) : List String :=
  xs.foldl (fun acc x => if x ∈ acc then acc else acc ++ [x]) []

/-- The (unit, room) pairs the main loop of `src/app.py` iterates over:
`for unit in df["unit_name"].unique(): for room in df[df["unit_name"]==unit]["room_type"].unique()`. -/
def room_groups (df : List SheetRow) : List (String × String) :=
  (unique_first (df.map (fun r => r.unit_name))).flatMap (fun u =>
    (unique_first ((df.filter (fun r => r.unit_name == u)).map
        (fun r => r.room_type))).map (fun room => (u, room)))

/-- The body of the per-room `try/except` in `src/app.py` for one group:
build the table, then read the group's cache file (`FileNotFoundError`
→ no alerts) and run change detection.  Any exception inside
(`validate_room_block`, a job, `iloc[0]`) is caught by the handler and
becomes the group's error outcome. -/
def process_group (net : String → Except String Json) (df : List SheetRow)
    (check_in check_out : ℤ)
    (cache : String → String → Option (List (String × Option ℚ)))
    (g : String × String) : Except String (List CompRow × List ChangeEvent) :=
  (build_room_table net df g.1 g.2 check_in check_out).map (fun tbl =>
    (tbl, match cache g.1 g.2 with
          | none => []
          | some old => detect_changes tbl old))

/-- The main loop over all groups: each group's outcome is computed by its
own `try/except` body, an error in one group only reaches `st.error` and
the loop continues with the next group. -/
def run_comparison (net : String → Except String Json) (df : List SheetRow)
    (check_in check_out : ℤ)
    (cache : String → String → Option (List (String × Option ℚ))) :
    List ((String × String) × Except String (List CompRow × List ChangeEvent)) :=
  (room_groups df).map (fun g => (g, process_group net df check_in check_out cache g))

/-- Lines 126–128 of `src/app.py`: the date guard.  `st.stop()` on
`check_out <= check_in` halts the script before the run button and any
job; otherwise the run proceeds. -/
def main_flow (net : String → Except String Json) (df : List SheetRow)
    (check_in check_out : ℤ)
    (cache : String → String → Option (List (String × Option ℚ))) :
    Option (List ((String × String) × Except String (List CompRow × List ChangeEvent))) :=
  if check_out ≤ check_in then none
  else some (run_comparison net df check_in check_out cache)

/-- Whether an `Except` outcome is a raised error. -/
def isErr {α : Type} : Except String α → Bool
  | .error _ => true
  | .ok _ => false

/-- A network stub on which every job raises a timeout. -/
def netNone : String → Except String Json := fun _ => .error "timeout"

/-- A cache stub on which no snapshot file exists. -/
def cacheNone : String → String → Option (List (String × Option ℚ)) :=
  fun _ _ => none

/-- A payload of the shape the extractor expects, with the given
`data.items[0].price.total`. -/
def totalPayload (t : ℚ) : Json :=
  Json.obj [("data", Json.obj [("items", Json.arr
    [Json.obj [("price", Json.obj [("total", Json.num t)])]])])]

/-- The spec's rounding rule, modelled from its words: round to two
decimal places, ties upward (half-up). -/
def specRoundHalfUp2 (x : ℚ) : ℚ := (Int.floor (x * 100 + 1/2) : ℚ) / 100

/-- The job specification submitted for one sheet row: `fetch_price`
passes only `row["booking_url"]` and the stay dates to `run_apify`,
which builds `input_data` from them (`none` models the NaN-URL case
where the HTTP call itself errors). -/
def job_input_for_row (row : SheetRow) (check_in check_out : ℤ) :
    Option (List (String × Json)) :=
  row.booking_url.map (fun url => apify_input url check_in check_out)

/-- A payload exposing only a direct average-nightly-price field, no
total. -/
def avgPayload : Json :=
  Json.obj [("data", Json.obj [("items", Json.arr
    [Json.obj [("price", Json.obj [("avgPriceNightly", Json.num 100)])]])])]

/-- A two-own-rows sheet used to witness C7. -/
def dfC7 : List SheetRow :=
  [⟨"U", "R", "own", "OwnP", some "u0"⟩, ⟨"U", "R", "own", "OwnQ", some "u1"⟩]

/-- A well-composed group except that one competitor's URL cell is NaN;
witnesses C10. -/
def dfC10 : List SheetRow :=
  [⟨"U", "R", "own", "P0", some "u0"⟩,
   ⟨"U", "R", "competitor", "P1", some "u1"⟩,
   ⟨"U", "R", "competitor", "P2", some "u2"⟩,
   ⟨"U", "R", "competitor", "P3", some "u3"⟩,
   ⟨"U", "R", "competitor", "P4", some "u4"⟩,
   ⟨"U", "R", "competitor", "P5", none⟩]

/-- A double-room competitor row. -/
def rowDouble : SheetRow := ⟨"U", "double", "competitor", "P", some "https://x"⟩

/-- The same row with a `room_type` absent from any occupancy table. -/
def rowWeird : SheetRow := ⟨"U", "unrecognized", "competitor", "P", some "https://x"⟩

/-- A network stub on which every job succeeds with a 200-total
payload. -/
def netOkW : String → Except String Json := fun _ => .ok (totalPayload 200)

/-- A network on which exactly the own row's URL times out and every
other URL succeeds. -/
def netC2 : String → Except String Json :=
  fun u => if u == "u0" then .error "timeout" else .ok (totalPayload 200)

/-- A correctly composed group sheet: one own row (URL `u0`) and five
competitors. -/
def dfC2 : List SheetRow :=
  [⟨"U", "R", "own", "P0", some "u0"⟩,
   ⟨"U", "R", "competitor", "P1", some "u1"⟩,
   ⟨"U", "R", "competitor", "P2", some "u2"⟩,
   ⟨"U", "R", "competitor", "P3", some "u3"⟩,
   ⟨"U", "R", "competitor", "P4", some "u4"⟩,
   ⟨"U", "R", "competitor", "P5", some "u5"⟩]

/-- The quotes of the spec's worked scenario: own resolved at 90, one
competitor at 80, one unresolved. -/
def resultsC6 : List PriceQuote :=
  [⟨"P0", "own", some 90⟩, ⟨"P1", "competitor", some 80⟩,
   ⟨"P2", "competitor", none⟩]

/-- The own quote of `resultsC6`. -/
def ownC6 : PriceQuote := ⟨"P0", "own", some 90⟩

/-- A current table with one property, price unresolved. -/
def curC1 : List CompRow := [⟨"P1", "own", none, none, none⟩]

/-- The previous snapshot of the same property, also unresolved. -/
def oldC1 : List (String × Option ℚ) := [("P1", none)]

/-- A current table holding the spec's second vector, price 105. -/
def curC1w : List CompRow := [⟨"P1", "own", some 105, none, none⟩]

/-- A previous snapshot holding P1 at 100. -/
def oldC1w : List (String × Option ℚ) := [("P1", some 100)]

/-- The extractor is the `totalField` access path followed by the
division and rounding; every other part of the payload is irrelevant. -/
theorem extract_eq_totalField (p : Json) (n : ℤ) :
    extract_price_per_night p n =
      match totalField p with
      | none => none
      | some t => if n = 0 then none else some (pyRound2 (t / (n : ℚ))) := by
  unfold extract_price_per_night totalField
  cases p.getO "data" with
  | none => rfl
  | some d =>
    simp only [Option.bind_eq_bind, Option.some_bind]
    cases d.getO "items" with
    | none => rfl
    | some items =>
      simp only [Option.some_bind]
      cases items.getIdx 0 with
      | none => rfl
      | some item0 =>
        simp only [Option.some_bind]
        cases item0.getO "price" with
        | none => rfl
        | some price =>
          simp only [Option.some_bind]
          cases price.getO "total" with
          | none => rfl
          | some totalJ =>
            simp only [Option.some_bind]
            cases totalJ.asNum with
            | none => rfl
            | some t => rfl

/-- An exception in `validate_room_block` propagates out of
`build_room_table` before any job is submitted. -/
theorem build_err_of_validate_err (net : String → Except String Json)
    (df : List SheetRow) (unit room : String) (check_in check_out : ℤ)
    (e : String) (h : validate_room_block df unit room = .error e) :
    build_room_table net df unit room check_in check_out = .error e := by
  unfold build_room_table
  rw [h]
  rfl

/-- When a block's own-row count is not 1 or its competitor count is not
5, `validate_room_block` raises a `ValueError`. -/
theorem validate_err_of_bad_counts (df : List SheetRow) (unit room : String)
    (h : ((room_block df unit room).filter (fun r => r.role == "own")).length ≠ 1 ∨
         ((room_block df unit room).filter (fun r => r.role == "competitor")).length ≠ 5) :
    isErr (validate_room_block df unit room) = true := by
  unfold validate_room_block
  dsimp only
  rcases hown : (room_block df unit room).filter (fun r => r.role == "own") with
    _ | ⟨o, _ | ⟨o2, os⟩⟩
  · rw [hown]
    rfl
  · rcases h with h1 | h2
    · rw [hown] at h1
      simp at h1
    · rw [hown]
      dsimp only
      rw [if_pos h2]
      rfl
  · rw [hown]
    rfl

/-- When some row of a block has a missing `booking_url`,
`validate_room_block` raises a `ValueError`. -/
theorem validate_err_of_missing_url (df : List SheetRow) (unit room : String)
    (h : ∃ r ∈ room_block df unit room, r.booking_url = none) :
    isErr (validate_room_block df unit room) = true := by
  unfold validate_room_block
  dsimp only
  rcases hown : (room_block df unit room).filter (fun r => r.role == "own") with
    _ | ⟨o, _ | ⟨o2, os⟩⟩
  · rw [hown]
    rfl
  · rw [hown]
    dsimp only
    by_cases hc :
      ((room_block df unit room).filter (fun r => r.role == "competitor")).length = 5
    · rw [if_neg (not_not.mpr hc)]
      have hany : (room_block df unit room).any (fun r => r.booking_url.isNone) = true := by
        rcases h with ⟨r, hr, hurl⟩
        exact List.any_eq_true.mpr ⟨r, hr, by simp [hurl]⟩
      rw [if_pos hany]
      rfl
    · rw [if_pos hc]
      rfl
  · rw [hown]
    rfl

/-- An exception inside `build_room_table` makes the whole group's
`try` body fail, so `process_group` yields the caught error. -/
theorem process_group_err_of_build_err (net : String → Except String Json)
    (df : List SheetRow) (check_in check_out : ℤ)
    (cache : String → String → Option (List (String × Option ℚ)))
    (g : String × String)
    (h : isErr (build_room_table net df g.1 g.2 check_in check_out) = true) :
    isErr (process_group net df check_in check_out cache g) = true := by
  unfold process_group
  cases hb : build_room_table net df g.1 g.2 check_in check_out with
  | error e => rfl
  | ok tbl => rw [hb] at h; simp [isErr] at h

/-- An error raised by `validate_room_block` surfaces from
`build_room_table` as well. -/
theorem build_isErr_of_validate_isErr (net : String → Except String Json)
    (df : List SheetRow) (unit room : String) (check_in check_out : ℤ)
    (h : isErr (validate_room_block df unit room) = true) :
    isErr (build_room_table net df unit room check_in check_out) = true := by
  cases hv : validate_room_block df unit room with
  | error e =>
    rw [build_err_of_validate_err net df unit room check_in check_out e hv]
    rfl
  | ok x => rw [hv] at h; simp [isErr] at h

/-- C7: a (unit, room) group whose block does not contain exactly one
`own` row, or whose competitor count violates the exactly-five policy,
makes `validate_room_block` raise (the `InvalidGroupComposition` error of
the spec); the exception surfaces from that group's `build_room_table`,
and the main loop still produces one outcome per group, each outcome
depending only on its own group's `process_group` run, so the other
groups continue to be processed. -/
theorem claim_c7_invalid_group_scoped (df : List SheetRow) (unit room : String)
    (h : ((room_block df unit room).filter (fun r => r.role == "own")).length ≠ 1 ∨
         ((room_block df unit room).filter (fun r => r.role == "competitor")).length ≠ 5) :
    isErr (validate_room_block df unit room) = true ∧
    (∀ net check_in check_out,
      isErr (build_room_table net df unit room check_in check_out) = true) ∧
    (∀ net check_in check_out cache,
      (run_comparison net df check_in check_out cache).map Prod.fst = room_groups df ∧
      ∀ g outcome, (g, outcome) ∈ run_comparison net df check_in check_out cache →
        outcome = process_group net df check_in check_out cache g) := by
  have hv := validate_err_of_bad_counts df unit room h
  refine ⟨hv, ?_, ?_⟩
  · intro net ci co
    exact build_isErr_of_validate_isErr net df unit room ci co hv
  · intro net ci co cache
    constructor
    · simp only [run_comparison, List.map_map]
      have hcomp :
          (Prod.fst ∘ fun g : String × String =>
            (g, process_group net df ci co cache g)) = id := rfl
      rw [hcomp, List.map_id]
    · intro g outcome hmem
      simp only [run_comparison, List.mem_map] at hmem
      obtain ⟨g2, _, heq⟩ := hmem
      obtain ⟨h1, h2⟩ := Prod.mk.injEq .. ▸ heq
      rw [← h2, h1]

/-- Witness for C7 at a concrete sheet with two `own` rows. -/
theorem claim_c7_witness :
    isErr (validate_room_block dfC7 "U" "R") = true ∧
    isErr (build_room_table netNone dfC7 "U" "R" 0 2) = true ∧
    (run_comparison netNone dfC7 0 2 cacheNone).map Prod.fst = room_groups dfC7 := by
  have h := claim_c7_invalid_group_scoped dfC7 "U" "R" (Or.inl (by decide))
  exact ⟨h.1, h.2.1 netNone 0 2, (h.2.2 netNone 0 2 cacheNone).1⟩

/-- C10: when any row of a (unit, room) block has a missing
`booking_url`, `validate_room_block` raises for the whole group, so the
group's `build_room_table` and `process_group` produce an error and no
prices for any row of the group — even when other rows have valid URLs. -/
theorem claim_c10_missing_url_fails_group (df : List SheetRow) (unit room : String)
    (h : ∃ r ∈ room_block df unit room, r.booking_url = none) :
    isErr (validate_room_block df unit room) = true ∧
    (∀ net check_in check_out,
      isErr (build_room_table net df unit room check_in check_out) = true) ∧
    (∀ net check_in check_out cache,
      isErr (process_group net df check_in check_out cache (unit, room)) = true) := by
  have hv := validate_err_of_missing_url df unit room h
  refine ⟨hv, fun net ci co => build_isErr_of_validate_isErr net df unit room ci co hv,
    fun net ci co cache => ?_⟩
  exact process_group_err_of_build_err net df ci co cache (unit, room)
    (build_isErr_of_validate_isErr net df unit room ci co hv)

/-- Witness for C10: one missing URL among six rows fails the group. -/
theorem claim_c10_witness :
    isErr (validate_room_block dfC10 "U" "R") = true ∧
    isErr (build_room_table netNone dfC10 "U" "R" 0 2) = true ∧
    isErr (process_group netNone dfC10 0 2 cacheNone ("U", "R")) = true := by
  have h := claim_c10_missing_url_fails_group dfC10 "U" "R" (by decide)
  exact ⟨h.1, h.2.1 netNone 0 2, h.2.2 netNone 0 2 cacheNone⟩

/-- C9: inputs with `check_out ≤ check_in` are stopped by the date guard
before any job runs; whenever the guard lets a run proceed,
`nights = check_out - check_in ≥ 1` holds, and in particular
`nights ≠ 0`, so the division by `nights` inside price extraction never
divides by zero. -/
theorem claim_c9_date_guard (net : String → Except String Json)
    (df : List SheetRow) (check_in check_out : ℤ)
    (cache : String → String → Option (List (String × Option ℚ))) :
    (check_out ≤ check_in → main_flow net df check_in check_out cache = none) ∧
    (∀ out, main_flow net df check_in check_out cache = some out →
      1 ≤ check_out - check_in ∧ check_out - check_in ≠ 0) := by
  constructor
  · intro h
    simp [main_flow, h]
  · intro out h
    by_cases hc : check_out ≤ check_in
    · simp [main_flow, hc] at h
    · constructor <;> omega

/-- Witness for C9: dates 5 → 3 are stopped; dates 3 → 7 pass the guard
with four nights. -/
theorem claim_c9_witness :
    main_flow netNone [] 5 3 cacheNone = none ∧
    (1 ≤ (7:ℤ) - 3 ∧ (7:ℤ) - 3 ≠ 0) :=
  ⟨(claim_c9_date_guard netNone [] 5 3 cacheNone).1 (by decide),
   (claim_c9_date_guard netNone [] 3 7 cacheNone).2
     (run_comparison netNone [] 3 7 cacheNone) rfl⟩

/-- C3 counterexample: the claim's first fallback step would return the
payload's direct average-nightly amount `A = 100` as-is, but
`extract_price_per_night` has no such step — it only reads
`data.items[0].price.total`, so this payload resolves to no price at
all instead of `100`. -/
theorem claim_c3_counterexample :
    extract_price_per_night avgPayload 2 = none ∧
    extract_price_per_night avgPayload 2 ≠ some 100 := by decide

/-- C3 (amended): price extraction applies a single strategy, not a
fallback chain: its result is determined by the `data.items[0].price.total`
path alone — when that path holds a number `t` and `nights ≠ 0` the
result is `round(t/nights, 2)`, and otherwise `None`.  No
average-nightly-price field is ever consulted. -/
theorem claim_c3_total_path_only (p : Json) (nights : ℤ) :
    extract_price_per_night p nights =
      match totalField p with
      | none => none
      | some t => if nights = 0 then none
                  else some (pyRound2 (t / (nights : ℚ))) :=
  extract_eq_totalField p nights

/-- C5 (amended): for every payload whose `data.items[0].price.total` is
`T` and every `nights = N ≥ 1`, extraction returns `T / N` rounded to two
decimal places with Python `round` semantics — ties to even, not
half-up. -/
theorem claim_c5_total_divided (p : Json) (t : ℚ) (n : ℤ)
    (ht : totalField p = some t) (hn : 1 ≤ n) :
    extract_price_per_night p n = some (pyRound2 (t / (n : ℚ))) := by
  rw [extract_eq_totalField, ht]
  dsimp only
  rw [if_neg (by omega)]

/-- Witness for C5 at `T = 21`, `N = 8`. -/
theorem claim_c5_witness :
    extract_price_per_night (totalPayload 21) 8 = some (pyRound2 (21 / ((8:ℤ) : ℚ))) :=
  claim_c5_total_divided (totalPayload 21) 21 8 rfl (by decide)

/-- C5 counterexample: at `T = 21`, `N = 8` — so `T/N = 2.625`, exactly
representable in binary64 — the code returns `2.62` (Python `round`,
ties-to-even) while the claim's half-up rounding demands `2.63`. -/
theorem claim_c5_counterexample :
    extract_price_per_night (totalPayload 21) 8 = some (131/50) ∧
    specRoundHalfUp2 (21/8) = 263/100 ∧
    (131/50 : ℚ) ≠ 263/100 := by
  refine ⟨?_, ?_, by norm_num⟩
  · have h : totalField (totalPayload 21) = some 21 := rfl
    rw [extract_eq_totalField, h]
    dsimp only
    rw [if_neg (by decide)]
    norm_num [pyRound2, roundHalfEven]
  · norm_num [specRoundHalfUp2]

/-- C8 (amended): extraction is total and never raises — it returns
`None` (the unresolved marker) unless the payload's
`data.items[0].price.total` parses as a number `t` and `nights ≠ 0`, in
which case it returns the rounded quotient; a `some` result always comes
from an actually parsed total (never a zero default for unresolved), but
it is negative when the payload's total is negative, so "non-negative
amount" does not hold for arbitrary payloads. -/
theorem claim_c8_total_or_none (p : Json) (n : ℤ) :
    extract_price_per_night p n = none ∨
    ∃ t, totalField p = some t ∧ n ≠ 0 ∧
      extract_price_per_night p n = some (pyRound2 (t / (n : ℚ))) := by
  have hkey := extract_eq_totalField p n
  cases ht : totalField p with
  | none => left; rw [hkey, ht]
  | some t =>
    by_cases hn : n = 0
    · left
      rw [hkey, ht]
      dsimp only
      rw [if_pos hn]
    · right
      refine ⟨t, rfl, hn, ?_⟩
      rw [hkey, ht]
      dsimp only
      rw [if_neg hn]

/-- C8 counterexample: a payload whose total is `-10`, over one night,
resolves to the negative amount `-10`, refuting "non-negative amount or
None". -/
theorem claim_c8_counterexample :
    extract_price_per_night (totalPayload (-10)) 1 = some (-10) ∧
    ¬ (0:ℚ) ≤ -10 := by
  constructor
  · have h : totalField (totalPayload (-10)) = some (-10) := rfl
    rw [extract_eq_totalField, h]
    dsimp only
    rw [if_neg (by decide)]
    norm_num [pyRound2, roundHalfEven]
  · norm_num

/-- C4 (amended): the scraper job specification contains exactly the
keys startUrls, checkIn, checkOut, currency and maxListings — no
occupancy (adults, children) at all — and is derived from the row's
`booking_url` alone, so `room_type` and property category never
influence it, and no `UnknownRoomType` error exists anywhere in the
flow. -/
theorem claim_c4_no_occupancy (url : String) (check_in check_out : ℤ) :
    (apify_input url check_in check_out).lookup "adults" = none ∧
    (apify_input url check_in check_out).lookup "children" = none ∧
    (apify_input url check_in check_out).map Prod.fst =
      ["startUrls", "checkIn", "checkOut", "currency", "maxListings"] ∧
    ∀ r1 r2 : SheetRow, r1.booking_url = r2.booking_url →
      job_input_for_row r1 check_in check_out =
        job_input_for_row r2 check_in check_out := by
  refine ⟨rfl, rfl, rfl, ?_⟩
  intro r1 r2 h
  unfold job_input_for_row
  rw [h]

/-- Witness for C4: the concrete job specification has no occupancy key,
and two rows differing only in `room_type` produce identical jobs. -/
theorem claim_c4_witness :
    (apify_input "https://x" 0 2).lookup "adults" = none ∧
    job_input_for_row rowDouble 0 2 = job_input_for_row rowWeird 0 2 := by
  have h := claim_c4_no_occupancy "https://x" 0 2
  exact ⟨h.1, h.2.2.2 rowDouble rowWeird rfl⟩

/-- C4 counterexample: the job built for a double-room row contains no
`adults` or `children` key (the claim requires an occupancy derived from
`room_type`), and a row with an unrecognized `room_type` yields an
ordinary job specification rather than an `UnknownRoomType` error. -/
theorem claim_c4_counterexample :
    job_input_for_row rowDouble 0 2 = some (apify_input "https://x" 0 2) ∧
    (apify_input "https://x" 0 2).lookup "adults" = none ∧
    (apify_input "https://x" 0 2).lookup "children" = none ∧
    job_input_for_row rowWeird 0 2 = some (apify_input "https://x" 0 2) :=
  ⟨rfl, rfl, rfl, rfl⟩

/-- C2 (amended): when every submitted job's network call returns a
payload, the runner returns exactly one quote per input row, in input
order, each carrying the price extracted from its own payload — so a job
whose payload has an empty or malformed result set yields
`price_per_night = None` for that property only, without affecting
siblings.  But when any single job raises (timeout or transport error),
`asyncio.gather` re-raises it: the whole group's run errors and every
sibling result is discarded. -/
theorem claim_c2_run_jobs :
    (∀ (net : String → Except String Json) (nights : ℤ)
       (rows : List SheetRow) (pay : SheetRow → Json),
       (∀ r ∈ rows, ∃ u, r.booking_url = some u ∧ net u = .ok (pay r)) →
       run_jobs net nights rows =
         .ok (rows.map (fun r =>
           ⟨r.property_name, r.role, extract_price_per_night (pay r) nights⟩))) ∧
    (∀ (net : String → Except String Json) (nights : ℤ) (rows : List SheetRow),
       (∃ r ∈ rows, isErr (fetch_price net nights r) = true) →
       isErr (run_jobs net nights rows) = true) := by
  constructor
  · intro net nights rows pay h
    induction rows with
    | nil => rfl
    | cons r rest ih =>
      obtain ⟨u, hu, hnet⟩ := h r (List.mem_cons_self r rest)
      have hrest := ih (fun x hx => h x (List.mem_cons_of_mem r hx))
      unfold run_jobs fetch_price
      rw [hu]
      dsimp only
      rw [hnet, hrest]
      rfl
  · intro net nights rows h
    induction rows with
    | nil =>
      obtain ⟨r, hr, _⟩ := h
      cases hr
    | cons r rest ih =>
      unfold run_jobs
      cases hf : fetch_price net nights r with
      | error e => rfl
      | ok q =>
        obtain ⟨r2, hr2, herr⟩ := h
        rcases List.mem_cons.mp hr2 with heq | hmem
        · rw [heq] at herr
          rw [hf] at herr
          simp [isErr] at herr
        · have hrest := ih ⟨r2, hmem, herr⟩
          cases hq : run_jobs net nights rest with
          | error e => rfl
          | ok qs => rw [hq] at hrest; simp [isErr] at hrest

/-- Witness for C2: a single-row run returns one quote in order, and the
same row against the timing-out network makes the gather error. -/
theorem claim_c2_witness :
    run_jobs netOkW 2 [rowDouble] =
      .ok ([rowDouble].map (fun r =>
        ⟨r.property_name, r.role,
          extract_price_per_night (totalPayload 200) 2⟩)) ∧
    isErr (run_jobs netNone 2 [rowDouble]) = true := by
  constructor
  · exact claim_c2_run_jobs.1 netOkW 2 [rowDouble] (fun _ => totalPayload 200)
      (by intro r hr
          rw [List.mem_singleton] at hr
          subst hr
          exact ⟨"https://x", rfl, rfl⟩)
  · exact claim_c2_run_jobs.2 netNone 2 [rowDouble]
      ⟨rowDouble, by simp, rfl⟩

/-- C2 counterexample: one job times out while its five siblings would
succeed, yet the runner yields no per-property results at all — the
whole group errors with the re-raised exception instead of returning a
`Failure` for that property only. -/
theorem claim_c2_counterexample :
    run_jobs netC2 2 dfC2 = .error "timeout" ∧
    build_room_table netC2 dfC2 "U" "R" 0 2 = .error "timeout" :=
  ⟨rfl, rfl⟩

/-- C6: in every group's table, each row whose price and the own row's
price are both resolved gets `diff_abs = price - own_price` exactly and
`diff_pct = round(diff_abs / own_price * 100, 1)` (the code's pandas
`.round(1)`, ties to even; the percentage clause assumes the resolved
own price is nonzero, since a zero own price yields IEEE infinity in
pandas, which the `Option ℚ` model cannot carry); and whenever the own
row's price is unresolved, both diff columns are absent (NaN) for every
row of the group. -/
theorem claim_c6_diff_columns (results : List PriceQuote) (ownQ : PriceQuote)
    (hfind : results.find? (fun q => q.role == "own") = some ownQ) :
    ∃ rows, addDiffs results = .ok rows ∧ rows.length = results.length ∧
      ∀ i (hi : i < results.length) (hr : i < rows.length),
        (rows.get ⟨i, hr⟩).property_name = (results.get ⟨i, hi⟩).property_name ∧
        (rows.get ⟨i, hr⟩).price_per_night = (results.get ⟨i, hi⟩).price_per_night ∧
        (∀ p o, (results.get ⟨i, hi⟩).price_per_night = some p →
          ownQ.price_per_night = some o →
          (rows.get ⟨i, hr⟩).diff_abs = some (p - o) ∧
          (o ≠ 0 →
            (rows.get ⟨i, hr⟩).diff_pct = some (pyRound1 ((p - o) / o * 100)))) ∧
        (ownQ.price_per_night = none →
          (rows.get ⟨i, hr⟩).diff_abs = none ∧
          (rows.get ⟨i, hr⟩).diff_pct = none) := by
  refine ⟨results.map (fun q =>
    ⟨q.property_name, q.role, q.price_per_night,
      pdSub q.price_per_night ownQ.price_per_night,
      pdPct (pdSub q.price_per_night ownQ.price_per_night)
        ownQ.price_per_night⟩), ?_, by simp, ?_⟩
  · unfold addDiffs
    rw [hfind]
  · intro i hi hr
    simp only [List.get_eq_getElem, List.getElem_map]
    refine ⟨trivial, trivial, ?_, ?_⟩
    · intro p o hp ho
      constructor
      · simp [pdSub, hp, ho]
      · intro hoz
        simp [pdSub, pdPct, hp, ho, hoz]
    · intro hnone
      constructor
      · simp [pdSub, hnone]
      · simp [pdSub, pdPct, hnone]

/-- Witness for C6: the diff columns are produced for the worked
scenario's table. -/
theorem claim_c6_witness : isErr (addDiffs resultsC6) = false := by
  obtain ⟨rows, h, -, -⟩ := claim_c6_diff_columns resultsC6 ownC6 rfl
  rw [h]
  rfl

/-- A key absent from an association list filters to nothing. -/
theorem filter_key_of_not_mem (l : List (String × Option ℚ)) (n : String)
    (h : n ∉ l.map Prod.fst) :
    l.filter (fun o => o.1 == n) = [] := by
  rw [List.filter_eq_nil_iff]
  intro o ho
  simp only [beq_iff_eq]
  intro heq
  exact h (heq ▸ List.mem_map_of_mem Prod.fst ho)

/-- Over an association list with no duplicate keys, filtering by key
equality yields exactly the `lookup` entry (the snapshot CSV holds one
row per property name). -/
theorem filter_key_eq_lookup (old : List (String × Option ℚ)) (n : String)
    (hnd : (old.map Prod.fst).Nodup) :
    old.filter (fun o => o.1 == n) =
      match old.lookup n with
      | none => []
      | some v => [(n, v)] := by
  induction old with
  | nil => rfl
  | cons kv rest ih =>
    obtain ⟨k, v⟩ := kv
    rw [List.map_cons, List.nodup_cons] at hnd
    obtain ⟨hk, hrestnd⟩ := hnd
    have hrest := ih hrestnd
    by_cases hkn : k = n
    · subst hkn
      have hnone : rest.filter (fun o => o.1 == k) = [] :=
        filter_key_of_not_mem rest k hk
      rw [List.filter_cons]
      simp only [beq_self_eq_true, if_pos]
      rw [hnone]
      simp [List.lookup]
    · have hb : (n == k) = false := beq_eq_false_iff_ne.mpr (Ne.symm hkn)
      have hb2 : (k == n) = false := beq_eq_false_iff_ne.mpr hkn
      rw [List.filter_cons]
      simp only [hb2, Bool.false_eq_true, if_false]
      rw [hrest]
      simp [List.lookup, hb]

/-- Unfolding one current row in change detection: its merged pairs come
first, then the rest of the table's. -/
theorem detect_changes_cons (c : CompRow) (cs : List CompRow)
    (old : List (String × Option ℚ)) :
    detect_changes (c :: cs) old =
      ((old.filter (fun o => o.1 == c.property_name)).map
        (fun o => (c, o.2))).filterMap (fun co =>
          if pandasNe co.1.price_per_night co.2
          then some ⟨co.1.property_name, co.2, co.1.price_per_night⟩
          else none)
      ++ detect_changes cs old := by
  unfold detect_changes mergeOld
  rw [List.flatMap_cons, List.filterMap_append]

/-- C1 (amended): change detection first inner-joins the current table
with the previous snapshot on `property_name` — so a property absent
from the previous snapshot (even one resolved now) produces no
ChangeEvent at all — and then emits one event per joined row whose
prices differ under pandas `!=`, where any unresolved side counts as
different, including unresolved-vs-unresolved.  Numeric
inequality is a change and numeric equality is not, as the claim says;
but absent-vs-absent also alerts, and new properties never do. -/
theorem claim_c1_change_detection (current : List CompRow)
    (old : List (String × Option ℚ)) (hnd : (old.map Prod.fst).Nodup) :
    detect_changes current old =
      current.filterMap (fun c =>
        match old.lookup c.property_name with
        | none => none
        | some pOld =>
          if pandasNe c.price_per_night pOld
          then some ⟨c.property_name, pOld, c.price_per_night⟩
          else none) := by
  induction current with
  | nil => rfl
  | cons c cs ih =>
    rw [detect_changes_cons, filter_key_eq_lookup old c.property_name hnd,
      List.filterMap_cons, ih]
    cases hl : old.lookup c.property_name with
    | none => rfl
    | some v =>
      by_cases hne : pandasNe c.price_per_night v
      · simp [hne]
      · simp [hne]

/-- C1 counterexample: a property unresolved in both the previous
snapshot and the current run gets a change alert (pandas NaN != NaN is
True) although the claim demands none; and a property absent from the
previous snapshot but resolved now is dropped by the inner merge, so no
ChangeEvent with old=absent is emitted although the claim demands
exactly one. -/
theorem claim_c1_counterexample :
    detect_changes curC1 oldC1 = [⟨"P1", none, none⟩] ∧
    detect_changes [⟨"P2", "competitor", some 50, none, none⟩] [] = [] :=
  ⟨rfl, rfl⟩

/-- Witness for C1 (amended) at the spec's test vector: previous
snapshot `{P1: 100}`, current quote `{P1: 105}`. -/
theorem claim_c1_witness :
    detect_changes curC1w oldC1w =
      curC1w.filterMap (fun c =>
        match oldC1w.lookup c.property_name with
        | none => none
        | some pOld =>
          if pandasNe c.price_per_night pOld
          then some ⟨c.property_name, pOld, c.price_per_night⟩
          else none) :=
  claim_c1_change_detection curC1w oldC1w (by decide)
